import Mathlib

/-!
Verification of the ewerobot credential/signing core.

This file gives a shallow embedding, in Lean 4, of the core of the
`ewerobot` Python package:

* `ewerobot/util.py` — `get_signature` (the JS-SDK signing algorithm),
  together with a byte-accurate SHA-1 implementation over `Nat` lists;
* `ewerobot/ewerobot.py` — `check_error`, `retry_exception`,
  `EClient.get_access_token`, `EClient.get_jsapi_ticket`,
  `EClient.request` (with its `@retry(stop_max_attempt_number=3, ...)`
  wrapper) and `EClient.send_all_text_message`.

Modelling conventions:

* Python `dict`s are embedded as association lists
  (`List (String × String)` or `List (String × JVal)`) whose key lists
  are duplicate-free, matching dict semantics; `sorted(d)` is embedded
  as an insertion sort of the key list under the string order.
* Machine-level 32-bit arithmetic inside SHA-1 is `Nat` arithmetic
  reduced modulo `2 ^ 32`.
* Network effects (the `requests` call, `grant_token`, the ticket
  fetch) are passed in as explicit per-attempt outcomes; exceptions are
  `Except` values, threaded together with the mutable client state.
* `time.time()` is passed in as an explicit integer `now`.
-/

set_option maxRecDepth 100000

namespace Ewerobot

/-! ### SHA-1 over byte lists (`hashlib.sha1(...).hexdigest()`) -/

/-- Truncate to a 32-bit word. -/
def w32 (x : Nat) : Nat := x % 4294967296

/-- Left-rotate a 32-bit word by `n` bits (`0 < n < 32`). -/
def rotl (n x : Nat) : Nat := w32 (x <<< n) ||| (x >>> (32 - n))

/-- The SHA-1 round function `f_t(b, c, d)`. -/
def sha1f (t b c d : Nat) : Nat :=
  if t < 20 then (b &&& c) ||| ((b ^^^ 4294967295) &&& d)
  else if t < 40 then b ^^^ c ^^^ d
  else if t < 60 then (b &&& c) ||| (b &&& d) ||| (c &&& d)
  else b ^^^ c ^^^ d

/-- The SHA-1 round constant `K_t`. -/
def sha1k (t : Nat) : Nat :=
  if t < 20 then 1518500249
  else if t < 40 then 1859775393
  else if t < 60 then 2400959708
  else 3395469782

/-- Big-endian 32-bit words from a byte list (length a multiple of 4). -/
def bytesToWords : List Nat → List Nat
  | b0 :: b1 :: b2 :: b3 :: rest =>
      (b0 <<< 24 ||| b1 <<< 16 ||| b2 <<< 8 ||| b3) :: bytesToWords rest
  | _ => []

/-- Extend the 16-word schedule by `n` further words
(`W[i] = rotl 1 (W[i-3] xor W[i-8] xor W[i-14] xor W[i-16])`). -/
def extendW (w : Array Nat) : Nat → Array Nat
  | 0 => w
  | n + 1 =>
      extendW
        (w.push (rotl 1
          ((w.getD (w.size - 3) 0) ^^^ (w.getD (w.size - 8) 0) ^^^
            (w.getD (w.size - 14) 0) ^^^ (w.getD (w.size - 16) 0)))) n

/-- Run `n` SHA-1 rounds starting at round `t` with state `(a,b,c,d,e)`. -/
def sha1Rounds (w : Array Nat) : Nat → Nat × Nat × Nat × Nat × Nat → Nat →
    Nat × Nat × Nat × Nat × Nat
  | _, st, 0 => st
  | t, (a, b, c, d, e), n + 1 =>
      let temp := w32 (rotl 5 a + sha1f t b c d + e + sha1k t + w.getD t 0)
      sha1Rounds w (t + 1) (temp, a, rotl 30 b, c, d) n

/-- Compress one 64-byte block into the running hash state. -/
def sha1Block (h : Nat × Nat × Nat × Nat × Nat) (block : List Nat) :
    Nat × Nat × Nat × Nat × Nat :=
  let w := extendW (bytesToWords block).toArray 64
  let (h0, h1, h2, h3, h4) := h
  let (a, b, c, d, e) := sha1Rounds w 0 (h0, h1, h2, h3, h4) 80
  (w32 (h0 + a), w32 (h1 + b), w32 (h2 + c), w32 (h3 + d), w32 (h4 + e))

/-- Append the `0x80` marker, zero padding and the 64-bit big-endian
bit length, producing a message whose length is a multiple of 64. -/
def sha1Pad (msg : List Nat) : List Nat :=
  let bitLen := 8 * msg.length
  let zeros := (119 - msg.length % 64) % 64
  msg ++ [128] ++ List.replicate zeros 0 ++
    [bitLen >>> 56 % 256, bitLen >>> 48 % 256, bitLen >>> 40 % 256,
     bitLen >>> 32 % 256, bitLen >>> 24 % 256, bitLen >>> 16 % 256,
     bitLen >>> 8 % 256, bitLen % 256]

/-- Split a byte list into 64-byte chunks (fuel-driven so that the
kernel can evaluate it; `fuel = l.length` always suffices). -/
def chunks64Go : Nat → List Nat → List (List Nat)
  | 0, _ => []
  | _, [] => []
  | fuel + 1, b :: rest => ((b :: rest).take 64) :: chunks64Go fuel ((b :: rest).drop 64)

/-- Split a byte list into 64-byte chunks. -/
def chunks64 (l : List Nat) : List (List Nat) := chunks64Go l.length l

/-- Lowercase hex digit for `n < 16`. -/
def hexDigit (n : Nat) : Char :=
  if n < 10 then Char.ofNat (48 + n) else Char.ofNat (87 + n)

/-- Eight lowercase hex digits of a 32-bit word, most significant first. -/
def word8Hex (x : Nat) : String :=
  String.mk ((List.range 8).map fun i => hexDigit ((x >>> (28 - 4 * i)) % 16))

/-- SHA-1 of a byte list, as the 40-character lowercase hex digest
(`hashlib.sha1(bytes).hexdigest()`). -/
def sha1Hex (msg : List Nat) : String :=
  let (h0, h1, h2, h3, h4) :=
    (chunks64 (sha1Pad msg)).foldl sha1Block
      (1732584193, 4023233417, 2562383102, 271733878, 3285377520)
  word8Hex h0 ++ word8Hex h1 ++ word8Hex h2 ++ word8Hex h3 ++ word8Hex h4

/-! ### UTF-8 encoding (`str.encode('utf-8')`) -/

/-- UTF-8 bytes of a single scalar value. -/
def utf8EncodeChar (c : Char) : List Nat :=
  let n := c.toNat
  if n < 128 then [n]
  else if n < 2048 then [192 ||| (n >>> 6), 128 ||| (n &&& 63)]
  else if n < 65536 then
    [224 ||| (n >>> 12), 128 ||| ((n >>> 6) &&& 63), 128 ||| (n &&& 63)]
  else
    [240 ||| (n >>> 18), 128 ||| ((n >>> 12) &&& 63),
     128 ||| ((n >>> 6) &&& 63), 128 ||| (n &&& 63)]

/-- UTF-8 bytes of a string (`s.encode('utf-8')`). -/
def utf8Encode (s : String) : List Nat :=
  (s.data.map utf8EncodeChar).flatten

/-! ### Python string primitives

Python compares strings by code points and `str.lower()` lower-cases
letters; we embed both directly over the character list (for the ASCII
keys appearing here, `Char.toLower` agrees with `str.lower()`). -/

/-- Code-point lexicographic `≤` on character lists (Python `str` order). -/
def charListLe : List Char → List Char → Bool
  | [], _ => true
  | _ :: _, [] => false
  | a :: as, b :: bs =>
    if a.toNat < b.toNat then true
    else if b.toNat < a.toNat then false
    else charListLe as bs

/-- Python's `≤` on strings (code-point lexicographic order). -/
def pyStrLe (a b : String) : Bool := charListLe a.data b.data

/-- `pyStrLe` as a relation, for use with `List.insertionSort`. -/
def pyStrLeP (a b : String) : Prop := pyStrLe a b = true

instance : DecidableRel pyStrLeP := fun a b =>
  inferInstanceAs (Decidable (pyStrLe a b = true))

/-- Python's `str.lower()` (over the character list). -/
def pyLower (s : String) : String := String.mk (s.data.map Char.toLower)

/-! ### `ewerobot/util.py`: `get_signature` -/

/-- `util.get_signature(sign_param)`.  A Python dict is embedded as an
association list with duplicate-free keys; `sorted(sign_param)` sorts
the keys (code-point order), and each joined pair is
`key.lower() + "=" + sign_param[key]`.  Note the source sorts the
*original* keys and only lower-cases them when building the joined
string. -/
def get_signature (sign_param : List (String × String)) : String :=
  let keys := (sign_param.map Prod.fst).insertionSort pyStrLeP
  let signature :=
    String.intercalate "&"
      (keys.map fun key => pyLower key ++ "=" ++ ((sign_param.lookup key).getD ""))
  sha1Hex (utf8Encode signature)

/-! ### `ewerobot/error.py` and the exceptions crossing `request`

`AccessTokenInvalid` subclasses `ClientException`; the transport
exceptions come from `requests`.  `keyError` stands for the Python
`KeyError` raised by `json["errmsg"]` when the field is missing, and
`assertionError` for the failed `assert` in `send_all_text_message`. -/

deriving instance DecidableEq for Except

inductive WError where
  | accessTokenInvalid (msg : String)
  | clientException (msg : String)
  | readTimeout
  | connectTimeout
  | httpError (status : Nat)
  | transportError
  | keyError
  | assertionError
deriving DecidableEq, Repr

/-- `retry_exception(exception)`: true exactly for
`AccessTokenInvalid`, `requests.exceptions.ReadTimeout` and
`requests.exceptions.ConnectTimeout`. -/
def retry_exception : WError → Bool
  | .accessTokenInvalid _ => true
  | .readTimeout => true
  | .connectTimeout => true
  | _ => false

/-! ### Decoded JSON bodies -/

/-- Scalar JSON values, enough for the error envelope and the bodies
the core inspects. -/
inductive JVal where
  | num (n : Int)
  | str (s : String)
  | bool (b : Bool)
deriving DecidableEq, Repr

/-- A decoded JSON object (a Python dict), as an association list with
duplicate-free keys. -/
abbrev Json := List (String × JVal)

/-- Python `v != 0` / `v == m` for an envelope field (`True == 1`,
`False == 0`; a string never equals an integer). -/
def jvalEqInt (v : JVal) (m : Int) : Bool :=
  match v with
  | .num n => n == m
  | .bool b => (if b then (1 : Int) else 0) == m
  | .str _ => false

/-- Python `str(v)` as used by `"{}: {}".format(...)`. -/
def pyStr : JVal → String
  | .num n => toString n
  | .str s => s
  | .bool b => if b then "True" else "False"

/-- `check_error(json)`: raise `AccessTokenInvalid` for
`errcode == 40001`, `ClientException` for any other nonzero
`errcode`, otherwise return the body unchanged. -/
def check_error (json : Json) : Except WError Json :=
  match json.lookup "errcode" with
  | none => .ok json
  | some v =>
    if jvalEqInt v 0 then .ok json
    else
      match json.lookup "errmsg" with
      | none => .error .keyError
      | some m =>
        if jvalEqInt v 40001 then
          .error (.accessTokenInvalid (pyStr v ++ ": " ++ pyStr m))
        else
          .error (.clientException (pyStr v ++ ": " ++ pyStr m))

/-! ### `EClient` state and the credential cache -/

/-- The mutable credential fields set by `EClient.init_app`. -/
structure ClientState where
  _token : Option String
  token_expires_at : Option Int
  _jsapi_ticket : Option String
  jsapi_ticket_expires_at : Option Int
deriving DecidableEq, Repr

/-- The state after `init_app`: all four fields are `None`. -/
def init_app : ClientState := ⟨none, none, none, none⟩

/-- Python truthiness of an optional string (`None` and `""` are falsy). -/
def pyTruthy : Option String → Bool
  | none => false
  | some s => s != ""

/-- `EClient.get_access_token(force)`.  `now` stands for `time.time()`
and `grant_token` for the outcome of the network fetch
(`{"access_token": ..., "expires_in": ...}` on success); the returned
pair is (result-or-exception, state after the call). -/
def get_access_token (st : ClientState) (force : Bool) (now : Int)
    (grant_token : Except WError (String × Int)) :
    Except WError String × ClientState :=
  if !force && pyTruthy st._token &&
      decide (st.token_expires_at.getD 0 - now > 60) then
    (.ok (st._token.getD ""), st)
  else
    match grant_token with
    | .error e => (.error e, st)
    | .ok (access_token, expires_in) =>
      (.ok access_token,
        { st with
            _token := some access_token
            token_expires_at := some (now + expires_in) })

/-- `EClient.get_jsapi_ticket(force)`.  `jsapi_ticket_fetch` is the
outcome of the `jsapi_ticket()` network call (`{"ticket": ...,
"expires_in": ...}` on success).  On the refresh path the source
stores the fetched ticket but then executes `return self._token` — so
the returned value is the (possibly `None`) access token field. -/
def get_jsapi_ticket (st : ClientState) (force : Bool) (now : Int)
    (jsapi_ticket_fetch : Except WError (String × Int)) :
    Except WError (Option String) × ClientState :=
  if !force && pyTruthy st._jsapi_ticket &&
      decide (st.jsapi_ticket_expires_at.getD 0 - now > 60) then
    (.ok st._jsapi_ticket, st)
  else
    match jsapi_ticket_fetch with
    | .error e => (.error e, st)
    | .ok (ticket, expires_in) =>
      (.ok st._token,
        { st with
            _jsapi_ticket := some ticket
            jsapi_ticket_expires_at := some (now + expires_in) })

/-! ### `EClient.request` -/

/-- The observable outcome of one `requests.request(...)` call:
a transport-level timeout/error, or an HTTP response with a status
code and a decoded JSON body. -/
inductive HttpOutcome where
  | connectTimeout
  | readTimeout
  | transportError
  | response (status : Nat) (body : Json)
deriving DecidableEq, Repr

/-- One un-retried attempt of `EClient.request(...)` after the request
has been sent: `r.raise_for_status()` (an `HTTPError` for a 4xx/5xx
status), then `check_error(r.json())`.  `if check_error(json): return
json` returns the body only when it is truthy (a non-empty dict);
otherwise the function falls through and returns `None`.  An
`AccessTokenInvalid` from `check_error` first runs
`self.get_access_token(force=True)` (whose own exception, if any,
replaces it) and is then re-raised. -/
def request_attempt (st : ClientState) (now : Int)
    (grant_token : Except WError (String × Int)) (out : HttpOutcome) :
    Except WError (Option Json) × ClientState :=
  match out with
  | .connectTimeout => (.error .connectTimeout, st)
  | .readTimeout => (.error .readTimeout, st)
  | .transportError => (.error .transportError, st)
  | .response status body =>
    if 400 ≤ status then (.error (.httpError status), st)
    else
      match check_error body with
      | .ok json =>
        if json.isEmpty then (.ok none, st) else (.ok (some json), st)
      | .error e =>
        match e with
        | .accessTokenInvalid msg =>
          match get_access_token st true now grant_token with
          | (.ok _, st') => (.error (.accessTokenInvalid msg), st')
          | (.error e2, st') => (.error e2, st')
        | _ => (.error e, st)

/-- The `@retry(stop_max_attempt_number=3,
retry_on_exception=retry_exception)` driver from the `retrying`
package: after a failed attempt it retries exactly when the exception
is retryable and fewer than the maximum number of attempts have been
made, otherwise it re-raises the exception.  `outs i` / `grants i` are
the network outcomes seen by attempt `i`; the result also carries the
final state and the number of attempts performed. -/
def request_go (now : Int) (grants : Nat → Except WError (String × Int))
    (outs : Nat → HttpOutcome) :
    Nat → ClientState → Nat → Except WError (Option Json) × ClientState × Nat
  | 0, st, i => (.error .transportError, st, i)
  | fuel + 1, st, i =>
    let res := request_attempt st now (grants i) (outs i)
    match res.1 with
    | .ok v => (.ok v, res.2, i + 1)
    | .error e =>
      if retry_exception e && !(fuel == 0) then
        request_go now grants outs fuel res.2 (i + 1)
      else (.error e, res.2, i + 1)

/-- `EClient.request(...)`: the retried attempt loop, bounded to 3
total attempts. -/
def request (st : ClientState) (now : Int)
    (grants : Nat → Except WError (String × Int)) (outs : Nat → HttpOutcome) :
    Except WError (Option Json) × ClientState × Nat :=
  request_go now grants outs 3 st 0

/-! ### `EClient.send_all_text_message` -/

/-- `EClient.send_all_text_message(content)`: the
`assert len(content.encode('utf-8')) < 2048` guard runs before any
network submission; on success the message is submitted (the HTTP POST
is an external effect, abstracted here to the submitted content). -/
def send_all_text_message (content : String) : Except WError String :=
  if (utf8Encode content).length < 2048 then .ok content
  else .error .assertionError

/-! ### Order-theoretic facts about the code-point string order -/

theorem charListLe_total : ∀ l1 l2 : List Char,
    charListLe l1 l2 = true ∨ charListLe l2 l1 = true := by
  intro l1
  induction l1 with
  | nil => intro l2; left; rfl
  | cons a as ih =>
    intro l2
    cases l2 with
    | nil => right; rfl
    | cons b bs =>
      rcases Nat.lt_trichotomy a.toNat b.toNat with h | h | h
      · left; simp [charListLe, h]
      · rcases ih bs with h2 | h2
        · left; simp [charListLe, h, h2]
        · right; simp [charListLe, h, h2]
      · right; simp [charListLe, h]

theorem charListLe_trans : ∀ l1 l2 l3 : List Char, charListLe l1 l2 = true →
    charListLe l2 l3 = true → charListLe l1 l3 = true := by
  intro l1
  induction l1 with
  | nil => intros; rfl
  | cons a as ih =>
    intro l2 l3 h12 h23
    cases l2 with
    | nil => simp [charListLe] at h12
    | cons b bs =>
      cases l3 with
      | nil => simp [charListLe] at h23
      | cons c cs =>
        by_cases hab : a.toNat < b.toNat
        · by_cases hbc : b.toNat < c.toNat
          · simp [charListLe, Nat.lt_trans hab hbc]
          · by_cases hcb : c.toNat < b.toNat
            · simp [charListLe, hbc, hcb] at h23
            · have hac : a.toNat < c.toNat := by omega
              simp [charListLe, hac]
        · by_cases hba : b.toNat < a.toNat
          · simp [charListLe, hab, hba] at h12
          · have hab' : a.toNat = b.toNat := by omega
            simp [charListLe, hab', Nat.lt_irrefl] at h12
            by_cases hbc : b.toNat < c.toNat
            · have hac : a.toNat < c.toNat := by omega
              simp [charListLe, hac]
            · by_cases hcb : c.toNat < b.toNat
              · simp [charListLe, hbc, hcb] at h23
              · have hbc' : b.toNat = c.toNat := by omega
                simp [charListLe, hbc', Nat.lt_irrefl] at h23
                have h1 : ¬ a.toNat < c.toNat := by omega
                have h2 : ¬ c.toNat < a.toNat := by omega
                simp [charListLe, h1, h2]
                exact ih bs cs h12 h23

theorem charListLe_antisymm : ∀ l1 l2 : List Char, charListLe l1 l2 = true →
    charListLe l2 l1 = true → l1 = l2 := by
  intro l1
  induction l1 with
  | nil =>
    intro l2 h12 h21
    cases l2 with
    | nil => rfl
    | cons b bs => simp [charListLe] at h21
  | cons a as ih =>
    intro l2 h12 h21
    cases l2 with
    | nil => simp [charListLe] at h12
    | cons b bs =>
      by_cases hab : a.toNat < b.toNat
      · simp [charListLe, hab, Nat.lt_asymm hab] at h21
      · by_cases hba : b.toNat < a.toNat
        · simp [charListLe, hab, hba] at h12
        · have h : a.toNat = b.toNat := by omega
          have hc : a = b := by
            have h2 := congrArg Char.ofNat h
            rwa [Char.ofNat_toNat, Char.ofNat_toNat] at h2
          subst hc
          simp [charListLe, Nat.lt_irrefl] at h12 h21
          rw [ih bs h12 h21]

instance : IsTotal String pyStrLeP :=
  ⟨fun a b => charListLe_total a.data b.data⟩

instance : IsTrans String pyStrLeP :=
  ⟨fun a b c h1 h2 => charListLe_trans a.data b.data c.data h1 h2⟩

instance : IsAntisymm String pyStrLeP :=
  ⟨fun a b h1 h2 => String.ext (charListLe_antisymm a.data b.data h1 h2)⟩

/-- Association-list lookup is invariant under permutation when the
keys are duplicate-free. -/
theorem lookup_eq_of_perm {l1 l2 : List (String × String)} (p : l1.Perm l2) :
    (l1.map Prod.fst).Nodup → ∀ k, l1.lookup k = l2.lookup k := by
  induction p with
  | nil => intro _ k; rfl
  | cons x p ih =>
    intro nd k
    simp only [List.map_cons, List.nodup_cons] at nd
    cases x with
    | mk xk xv =>
      simp only [List.lookup]
      cases hk : k == xk
      · simpa using ih nd.2 k
      · rfl
  | swap x y l =>
    intro nd k
    simp only [List.map_cons, List.nodup_cons, List.mem_cons] at nd
    cases x with
    | mk xk xv =>
      cases y with
      | mk yk yv =>
        simp only [List.lookup]
        cases hky : k == yk <;> cases hkx : k == xk <;> try rfl
        exact absurd (((eq_of_beq hky).symm.trans (eq_of_beq hkx))) (fun h => nd.1 (Or.inl h))
  | trans p1 p2 ih1 ih2 =>
    intro nd k
    exact (ih1 nd k).trans (ih2 ((p1.map Prod.fst).nodup nd) k)

/-! ### Claims about `get_signature` -/

/-- Claim C1, as stated, is false on the source: `get_signature` sorts
the *original* keys and lower-cases them only afterwards, so two
mappings that are equal after lower-casing the keys can hash different
canonical strings.  Witness: `{"B": "1", "a": "2"}` and
`{"b": "1", "a": "2"}` are identical after lower-casing keys, yet they
sort as `b=1&a=2` (since `"B" < "a"` in code-point order) and
`a=2&b=1` respectively, giving different digests. -/
theorem C1_counterexample :
    (([("B", "1"), ("a", "2")] : List (String × String)).map
        (fun p => (pyLower p.1, p.2)) =
      ([("b", "1"), ("a", "2")] : List (String × String)).map
        (fun p => (pyLower p.1, p.2))) ∧
    get_signature [("B", "1"), ("a", "2")] ≠
      get_signature [("b", "1"), ("a", "2")] :=
  ⟨by decide, by decide⟩

/-- Claim C1 (amended): signature determinism across insertion order —
for mappings with the same entries (identical key strings, any
insertion order), `get_signature` yields the same hex digest. -/
theorem C1_sign_insertion_order_determinism (l1 l2 : List (String × String))
    (hp : l1.Perm l2) (hnd : (l1.map Prod.fst).Nodup) :
    get_signature l1 = get_signature l2 := by
  have hkeys : (l1.map Prod.fst).insertionSort pyStrLeP =
      (l2.map Prod.fst).insertionSort pyStrLeP :=
    List.eq_of_perm_of_sorted
      ((List.perm_insertionSort pyStrLeP (l1.map Prod.fst)).trans
        ((hp.map Prod.fst).trans
          (List.perm_insertionSort pyStrLeP (l2.map Prod.fst)).symm))
      (List.sorted_insertionSort pyStrLeP (l1.map Prod.fst))
      (List.sorted_insertionSort pyStrLeP (l2.map Prod.fst))
  simp only [get_signature]
  rw [hkeys]
  apply congrArg
  apply congrArg
  apply congrArg
  exact List.map_congr_left fun k _ => by rw [lookup_eq_of_perm hp hnd k]

/-- Claim C1 witness: the amended determinism at a concrete pair of
mappings differing only in insertion order. -/
theorem C1_witness :
    ([("timestamp", "1"), ("url", "http://x")] : List (String × String)).Perm
        [("url", "http://x"), ("timestamp", "1")] ∧
    (([("timestamp", "1"), ("url", "http://x")] :
        List (String × String)).map Prod.fst).Nodup ∧
    get_signature [("timestamp", "1"), ("url", "http://x")] =
      get_signature [("url", "http://x"), ("timestamp", "1")] :=
  ⟨by decide, by decide,
    C1_sign_insertion_order_determinism _ _ (by decide) (by decide)⟩

/-- Claim C2, as stated, is false on the source: `"JsapiTicket".lower()`
is `"jsapiticket"`, not `"jsapi_ticket"`, so the worked example hashes
`jsapiticket=t&...`, not `jsapi_ticket=t&...`. -/
theorem C2_counterexample :
    get_signature
        [("Timestamp", "1"), ("Url", "http://x"), ("Noncestr", "abc"),
         ("JsapiTicket", "t")] ≠
      sha1Hex (utf8Encode "jsapi_ticket=t&noncestr=abc&timestamp=1&url=http://x") := by
  decide

/-- Claim C2 (amended): `get_signature` sorts the entries by original
parameter name in code-point order, lower-cases each name when
joining `name=value` pairs with `&` and no escaping, and returns the
lowercase SHA-1 hex digest of the UTF-8 bytes of that string; the
worked example therefore hashes
`jsapiticket=t&noncestr=abc&timestamp=1&url=http://x`. -/
theorem C2_sign_algorithm_example :
    get_signature
        [("Timestamp", "1"), ("Url", "http://x"), ("Noncestr", "abc"),
         ("JsapiTicket", "t")] =
      sha1Hex (utf8Encode "jsapiticket=t&noncestr=abc&timestamp=1&url=http://x") := by
  decide

/-! ### Claim about `get_jsapi_ticket`'s return value -/

/-- Claim C3: the refresh path of `get_jsapi_ticket` stores the freshly
fetched ticket and its expiry, but its final `return self._token`
yields the stored *access token* field, not the fresh ticket — the
code contradicts both its own docstring (`:return: jsapi_ticket`) and
the claim. -/
theorem C3_ticket_refresh_returns_token :
    get_jsapi_ticket ⟨some "stored-access-token", some 9999, none, none⟩
        false 1000 (.ok ("fresh-ticket", 7200)) =
      (.ok (some "stored-access-token"),
        ⟨some "stored-access-token", some 9999, some "fresh-ticket", some 8200⟩) ∧
    (Except.ok (some "fresh-ticket") : Except WError (Option String)) ≠
      .ok (some "stored-access-token") :=
  ⟨by decide, by decide⟩

/-! ### Claim about `check_error` -/

/-- Claim C6: `check_error` classifies a decoded body as success (and
returns it unchanged) when `errcode` is absent or `0`; for any nonzero
`errcode` with an `errmsg` it raises `AccessTokenInvalid` exactly when
the code is `40001` and `ClientException` otherwise, in both cases
with the message `"<code>: <errmsg>"`. -/
theorem C6_check_error_classification (j : Json) (c : Int) (m : String) :
    ((j.lookup "errcode" = none ∨ j.lookup "errcode" = some (.num 0)) →
      check_error j = .ok j) ∧
    (j.lookup "errcode" = some (.num c) → j.lookup "errmsg" = some (.str m) →
      c ≠ 0 →
      check_error j =
        if c = 40001 then
          .error (.accessTokenInvalid (toString c ++ ": " ++ m))
        else
          .error (.clientException (toString c ++ ": " ++ m))) := by
  constructor
  · rintro (h | h) <;> simp [check_error, h, jvalEqInt]
  · intro hc hm hne
    by_cases h4 : c = 40001 <;>
      simp [check_error, hc, hm, jvalEqInt, pyStr, hne, h4]

/-- Claim C6 witness: the canonical invalid-credential envelope is
classified as `AccessTokenInvalid` carrying code and message. -/
theorem C6_witness :
    check_error [("errcode", JVal.num 40001), ("errmsg", JVal.str "invalid credential")] =
      .error (.accessTokenInvalid "40001: invalid credential") := by
  have h := (C6_check_error_classification
      [("errcode", JVal.num 40001), ("errmsg", JVal.str "invalid credential")]
      40001 "invalid credential").2 (by decide) (by decide) (by decide)
  exact h.trans (by decide)

/-! ### Claims about the credential cache -/

/-- Claim C7: with a cached access token present and `force = False`,
`get_access_token` returns the cached value untouched (independently
of the fetch outcome) exactly when `expires_at - now > 60`; otherwise
it consults the fetch, storing `expires_at = now + expires_in` and
returning the fresh token on success. -/
theorem C7_cache_freshness_margin (st : ClientState) (ea now : Int)
    (hT : pyTruthy st._token = true) (hE : st.token_expires_at = some ea) :
    (ea - now > 60 → ∀ fetch, get_access_token st false now fetch =
        (.ok (st._token.getD ""), st)) ∧
    (ea - now ≤ 60 → ∀ t ei, get_access_token st false now (.ok (t, ei)) =
        (.ok t, { st with _token := some t,
                          token_expires_at := some (now + ei) })) ∧
    (ea - now ≤ 60 → ∀ e, get_access_token st false now (.error e) =
        (.error e, st)) := by
  refine ⟨fun h fetch => ?_, fun h t ei => ?_, fun h e => ?_⟩
  · simp [get_access_token, hT, hE, h]
  · have h2 : ¬ (60 : Int) < ea - now := by omega
    simp [get_access_token, hT, hE, h2]
  · have h2 : ¬ (60 : Int) < ea - now := by omega
    simp [get_access_token, hT, hE, h2]

/-- Claim C7 witness: at `expires_at = now + 120` the cache is
returned without consulting the fetch; at `expires_at = now + 30` the
fetch result is stored and returned. -/
theorem C7_witness :
    get_access_token ⟨some "cached-token", some 1120, none, none⟩ false 1000
        (.error .readTimeout) =
      (.ok "cached-token", ⟨some "cached-token", some 1120, none, none⟩) ∧
    get_access_token ⟨some "cached-token", some 1030, none, none⟩ false 1000
        (.ok ("fresh-token", 7200)) =
      (.ok "fresh-token", ⟨some "fresh-token", some 8200, none, none⟩) := by
  constructor
  · exact ((C7_cache_freshness_margin ⟨some "cached-token", some 1120, none, none⟩
      1120 1000 (by decide) rfl).1 (by decide) _).trans (by decide)
  · exact ((C7_cache_freshness_margin ⟨some "cached-token", some 1030, none, none⟩
      1030 1000 (by decide) rfl).2.1 (by decide) "fresh-token" 7200).trans (by decide)

/-- Claim C9: if the underlying fetch raises, both accessors either
propagate the error with the state exactly unchanged, or (cache-hit
path, fetch never consulted) return the cached value with the state
unchanged; on a fetch success the stored value and its expiry are
replaced together in one step. -/
theorem C9_cache_update_atomicity (st : ClientState) (force : Bool) (now : Int) :
    (∀ e : WError,
      get_access_token st force now (.error e) = (.error e, st) ∨
      get_access_token st force now (.error e) = (.ok (st._token.getD ""), st)) ∧
    (∀ e : WError,
      get_jsapi_ticket st force now (.error e) = (.error e, st) ∨
      get_jsapi_ticket st force now (.error e) = (.ok st._jsapi_ticket, st)) ∧
    (∀ (t : String) (ei : Int),
      get_access_token st force now (.ok (t, ei)) = (.ok (st._token.getD ""), st) ∨
      get_access_token st force now (.ok (t, ei)) =
        (.ok t, { st with _token := some t,
                          token_expires_at := some (now + ei) })) ∧
    (∀ (t : String) (ei : Int),
      get_jsapi_ticket st force now (.ok (t, ei)) = (.ok st._jsapi_ticket, st) ∨
      get_jsapi_ticket st force now (.ok (t, ei)) =
        (.ok st._token, { st with _jsapi_ticket := some t,
                                  jsapi_ticket_expires_at := some (now + ei) })) := by
  refine ⟨fun e => ?_, fun e => ?_, fun t ei => ?_, fun t ei => ?_⟩
  · by_cases h : (!force && pyTruthy st._token &&
        decide (st.token_expires_at.getD 0 - now > 60)) = true
    · right; simp [get_access_token, h]
    · left; simp [get_access_token, h]
  · by_cases h : (!force && pyTruthy st._jsapi_ticket &&
        decide (st.jsapi_ticket_expires_at.getD 0 - now > 60)) = true
    · right; simp [get_jsapi_ticket, h]
    · left; simp [get_jsapi_ticket, h]
  · by_cases h : (!force && pyTruthy st._token &&
        decide (st.token_expires_at.getD 0 - now > 60)) = true
    · left; simp [get_access_token, h]
    · right; simp [get_access_token, h]
  · by_cases h : (!force && pyTruthy st._jsapi_ticket &&
        decide (st.jsapi_ticket_expires_at.getD 0 - now > 60)) = true
    · left; simp [get_jsapi_ticket, h]
    · right; simp [get_jsapi_ticket, h]

/-! ### Claim about the broadcast size guard -/

/-- Claim C10: `send_all_text_message` fails the local `assert` (before
any network submission) exactly when the UTF-8 encoding of the content
is 2048 bytes or more; a 2048-byte content is rejected and a 2047-byte
one is accepted for submission. -/
theorem C10_broadcast_size_guard :
    (∀ content : String,
      (send_all_text_message content = .error .assertionError ↔
        2048 ≤ (utf8Encode content).length) ∧
      ((utf8Encode content).length < 2048 →
        send_all_text_message content = .ok content)) ∧
    send_all_text_message (String.mk (List.replicate 2048 'a')) =
      .error .assertionError ∧
    send_all_text_message (String.mk (List.replicate 2047 'a')) =
      .ok (String.mk (List.replicate 2047 'a')) := by
  have hlen : ∀ n : Nat, (utf8Encode (String.mk (List.replicate n 'a'))).length = n := by
    intro n
    induction n with
    | zero => rfl
    | succ k ih =>
      simp only [utf8Encode] at ih ⊢
      rw [List.replicate_succ, List.map_cons, List.flatten_cons,
        List.length_append, ih, show utf8EncodeChar 'a' = [97] from rfl]
      simp [Nat.add_comm]
  refine ⟨fun content => ⟨?_, fun h => ?_⟩, ?_, ?_⟩
  · by_cases h : (utf8Encode content).length < 2048
    · simp [send_all_text_message, h]
    · simp [send_all_text_message, h]
      omega
  · simp [send_all_text_message, h]
  · simp only [send_all_text_message, hlen 2048]
    rfl
  · simp only [send_all_text_message, hlen 2047]
    rfl

/-- Claim C10 witness: a short message passes the guard and is
submitted unchanged. -/
theorem C10_witness : send_all_text_message "hello" = .ok "hello" :=
  (C10_broadcast_size_guard.1 "hello").2 (by decide)

/-! ### Claims about `request`: retry bound, invalidation refresh,
success payload -/

/-- One retryable failed attempt with remaining budget consumes one
unit of fuel and re-runs the loop from the post-attempt state. -/
theorem request_go_all_retryable (now : Int)
    (grants : Nat → Except WError (String × Int)) (outs : Nat → HttpOutcome)
    (es : Nat → WError) :
    ∀ f : Nat, f ≠ 0 → ∀ (st : ClientState) (i : Nat),
      (∀ j (s : ClientState), (request_attempt s now (grants j) (outs j)).1 = .error (es j)) →
      (∀ j, retry_exception (es j) = true) →
      ∃ s', request_go now grants outs f st i = (.error (es (i + f - 1)), s', i + f) := by
  intro f
  induction f with
  | zero => intro h; exact absurd rfl h
  | succ f ih =>
    intro _ st i h hr
    by_cases hf : f = 0
    · subst hf
      refine ⟨(request_attempt st now (grants i) (outs i)).2, ?_⟩
      simp [request_go, h i st, hr i]
    · obtain ⟨s', hs'⟩ := ih hf ((request_attempt st now (grants i) (outs i)).2) (i + 1) h hr
      refine ⟨s', ?_⟩
      have hb : (f == 0) = false := by simp [hf]
      simp only [request_go, h i st, hr i, hb]
      rw [hs']
      have h1 : i + 1 + f - 1 = i + (f + 1) - 1 := by omega
      have h2 : i + 1 + f = i + (f + 1) := by omega
      rw [h1, h2]
      simp

theorem C4_retry_bound (now : Int) (grants : Nat → Except WError (String × Int))
    (outs : Nat → HttpOutcome) (st : ClientState) :
    (∀ es : Nat → WError,
      (∀ i (s : ClientState),
        (request_attempt s now (grants i) (outs i)).1 = .error (es i)) →
      (∀ i, retry_exception (es i) = true) →
      (request st now grants outs).1 = .error (es 2) ∧
        (request st now grants outs).2.2 = 3) ∧
    (∀ e : WError,
      (∀ s : ClientState, (request_attempt s now (grants 0) (outs 0)).1 = .error e) →
      retry_exception e = false →
      request st now grants outs =
        (.error e, (request_attempt st now (grants 0) (outs 0)).2, 1)) := by
  constructor
  · intro es h hr
    obtain ⟨s', hs'⟩ :=
      request_go_all_retryable now grants outs es 3 (by omega) st 0 h hr
    unfold request
    rw [hs']
    exact ⟨rfl, rfl⟩
  · intro e h hr
    show request_go now grants outs (2 + 1) st 0 = _
    simp [request_go, h st, hr]

theorem C4_witness :
    (request init_app 0 (fun _ => .error .transportError) (fun _ => .readTimeout)).1 =
        .error .readTimeout ∧
    (request init_app 0 (fun _ => .error .transportError) (fun _ => .readTimeout)).2.2 = 3 ∧
    request init_app 0 (fun _ => .error .transportError)
        (fun _ => .response 200 [("errcode", .num 500), ("errmsg", .str "system busy")]) =
      (.error (.clientException "500: system busy"), init_app, 1) := by
  have h1 := (C4_retry_bound 0 (fun _ => .error .transportError)
      (fun _ => .readTimeout) init_app).1 (fun _ => .readTimeout)
      (fun i s => rfl) (fun i => rfl)
  have h2 := (C4_retry_bound 0 (fun _ => .error .transportError)
      (fun _ => .response 200 [("errcode", .num 500), ("errmsg", .str "system busy")])
      init_app).2 (.clientException (pyStr (.num 500) ++ ": " ++ pyStr (.str "system busy")))
      (fun s => rfl) rfl
  exact ⟨h1.1, h1.2, h2.trans (by decide)⟩


theorem C5_invalidation_triggers_refresh (now : Int)
    (grants : Nat → Except WError (String × Int)) (outs : Nat → HttpOutcome)
    (st : ClientState) (i f status : Nat) (body : Json) (m t : String) (ei : Int)
    (hout : outs i = .response status body) (hs : status < 400)
    (hc : body.lookup "errcode" = some (.num 40001))
    (hm : body.lookup "errmsg" = some (.str m))
    (hg : grants i = .ok (t, ei)) (hf : f ≠ 0) :
    request_go now grants outs (f + 1) st i =
      request_go now grants outs f
        { st with _token := some t, token_expires_at := some (now + ei) } (i + 1) := by
  have h0 : jvalEqInt (JVal.num 40001) 0 = false := by decide
  have h1 : jvalEqInt (JVal.num 40001) 40001 = true := by decide
  have hatt : request_attempt st now (grants i) (outs i) =
      (.error (.accessTokenInvalid (pyStr (.num 40001) ++ ": " ++ pyStr (.str m))),
        { st with _token := some t, token_expires_at := some (now + ei) }) := by
    rw [hout, hg]
    simp [request_attempt, check_error, hc, hm, h0, h1, get_access_token,
      Nat.not_le.mpr hs]
  have hb : (f == 0) = false := by simp [hf]
  simp [request_go, hatt, retry_exception, hb]

theorem C5_witness :
    request_go 1000 (fun _ => .ok ("fresh-token", 7200))
        (fun _ => .response 200
          [("errcode", .num 40001), ("errmsg", .str "invalid credential")])
        3 init_app 0 =
      request_go 1000 (fun _ => .ok ("fresh-token", 7200))
        (fun _ => .response 200
          [("errcode", .num 40001), ("errmsg", .str "invalid credential")])
        2 ⟨some "fresh-token", some 8200, none, none⟩ 1 :=
  C5_invalidation_triggers_refresh 1000 _ _ init_app 0 2 200
    [("errcode", .num 40001), ("errmsg", .str "invalid credential")]
    "invalid credential" "fresh-token" 7200 rfl (by decide) (by decide) (by decide)
    rfl (by decide)

theorem C8_counterexample :
    request init_app 0 (fun _ => .error .transportError) (fun _ => .response 200 []) =
      (.ok none, init_app, 1) ∧
    (Except.ok (some ([] : Json)) : Except WError (Option Json)) ≠ .ok none :=
  ⟨by decide, by decide⟩

theorem C8_success_payload (st : ClientState) (now : Int)
    (grants : Nat → Except WError (String × Int)) (outs : Nat → HttpOutcome)
    (status : Nat) (body : Json) (hout : outs 0 = .response status body)
    (hs : status < 400) (hc : check_error body = .ok body) :
    request st now grants outs =
      (if body.isEmpty then (.ok none, st, 1) else (.ok (some body), st, 1)) := by
  have hatt : request_attempt st now (grants 0) (outs 0) =
      ((if body.isEmpty then .ok none else .ok (some body) :
        Except WError (Option Json)), st) := by
    rw [hout]
    by_cases hb : body.isEmpty <;>
      simp [request_attempt, Nat.not_le.mpr hs, hc, hb]
  by_cases hb : body.isEmpty <;>
    simp [request, request_go, hatt, hb]

theorem C8_witness :
    request init_app 0 (fun _ => .error .transportError)
        (fun _ => .response 200 [("access_token", JVal.str "tok")]) =
      (.ok (some [("access_token", JVal.str "tok")]), init_app, 1) :=
  (C8_success_payload init_app 0 _ _ 200 [("access_token", JVal.str "tok")]
    rfl (by decide) (by decide)).trans (by decide)

end Ewerobot
